import Mathlib

/-!
Verification development for the FogLAMP SimpleExpression notification
rule plugin (src/plugin.cpp, src/include/simple_expression.h).

The plugin keeps an `Evaluator` holding up to `MAX_EXPRESSION_VARIABLES`
named numeric variable slots backing a compiled exprtk expression.  Each
evaluation cycle (`plugin_eval`) looks up each subscribed asset in the
incoming JSON document, updates the variable slots from the asset's
numeric datapoints, computes the expression value, decides
`value == 1.0`, and finally overwrites the trigger state.

Shallow-embedding conventions:
- C++ `double` is modelled by `EDouble`: a finite rational, NaN, or a
  signed infinity, with IEEE-style operation tables (NaN propagates
  through arithmetic, any comparison with NaN is false, `x == y` is
  false whenever either side is NaN).
- `rand()` (used by the test code left in `Evaluator::evaluate` for
  T_FLOAT datapoints) is modelled by threading an explicit stream of
  rational draws; each T_FLOAT datapoint consumes one draw.
- rapidjson documents are modelled as already-parsed association lists;
  a parse error is `Option.none`.
-/

namespace SimpleExprRule

/-- Model of a C++ `double`: NaN, a signed infinity (`inf true` is +∞),
or a finite value represented exactly by a rational. -/
inductive EDouble where
  | nan : EDouble
  | inf : Bool → EDouble
  | fin : ℚ → EDouble
deriving DecidableEq

/-- C++ `isnan` on the modelled double. -/
def EDouble.isNan : EDouble → Bool
  | .nan => true
  | _ => false

/-- The value is finite (neither NaN nor an infinity). -/
def EDouble.isFinite : EDouble → Bool
  | .fin _ => true
  | _ => false

/-- C++ `==` on doubles: NaN compares unequal to everything (itself
included); infinities compare by sign; finite values by value. -/
def EDouble.dEq : EDouble → EDouble → Bool
  | .nan, _ => false
  | _, .nan => false
  | .inf s, .inf t => s == t
  | .inf _, .fin _ => false
  | .fin _, .inf _ => false
  | .fin q, .fin r => decide (q = r)

/-- IEEE addition on the modelled double. -/
def EDouble.add : EDouble → EDouble → EDouble
  | .nan, _ => .nan
  | _, .nan => .nan
  | .inf s, .inf t => if s = t then .inf s else .nan
  | .inf s, .fin _ => .inf s
  | .fin _, .inf t => .inf t
  | .fin q, .fin r => .fin (q + r)

/-- IEEE negation on the modelled double. -/
def EDouble.neg : EDouble → EDouble
  | .nan => .nan
  | .inf s => .inf (!s)
  | .fin q => .fin (-q)

/-- IEEE subtraction, `a - b = a + (-b)`. -/
def EDouble.sub (a b : EDouble) : EDouble := a.add b.neg

/-- IEEE multiplication on the modelled double. -/
def EDouble.mul : EDouble → EDouble → EDouble
  | .nan, _ => .nan
  | _, .nan => .nan
  | .inf s, .inf t => .inf (s = t)
  | .inf s, .fin q => if q = 0 then .nan else .inf (s = decide (0 < q))
  | .fin q, .inf t => if q = 0 then .nan else .inf (t = decide (0 < q))
  | .fin q, .fin r => .fin (q * r)

/-- IEEE division on the modelled double (zeros are treated as +0). -/
def EDouble.div : EDouble → EDouble → EDouble
  | .nan, _ => .nan
  | _, .nan => .nan
  | .inf _, .inf _ => .nan
  | .inf s, .fin q => .inf (s = decide (0 ≤ q))
  | .fin _, .inf _ => .fin 0
  | .fin q, .fin r =>
      if r = 0 then (if q = 0 then .nan else .inf (decide (0 < q)))
      else .fin (q / r)

/-- C++ `>` on doubles: false when either operand is NaN. -/
def EDouble.gtB : EDouble → EDouble → Bool
  | .nan, _ => false
  | _, .nan => false
  | .inf s, .inf t => s && !t
  | .inf s, .fin _ => s
  | .fin _, .inf t => !t
  | .fin q, .fin r => decide (r < q)

/-- exprtk `a > b`: yields the double 1.0 or 0.0. -/
def EDouble.gtE (a b : EDouble) : EDouble :=
  if a.gtB b then .fin 1 else .fin 0

/-- exprtk truth test on a double (`v != 0`); note NaN `!= 0` is true. -/
def EDouble.isTrue : EDouble → Bool
  | .nan => true
  | .inf _ => true
  | .fin q => decide (q ≠ 0)

/-- Abstract syntax of a compiled exprtk expression over named variables:
numeric literals, variable references, the four arithmetic operators, the
`>` comparison (yielding 1.0/0.0) and the `if(cond, a, b)` construct.
The exprtk grammar itself is external to this repository; this AST covers
the constructs the specification's examples use. -/
inductive Expr where
  | const : ℚ → Expr
  | var : String → Expr
  | add : Expr → Expr → Expr
  | sub : Expr → Expr → Expr
  | mul : Expr → Expr → Expr
  | div : Expr → Expr → Expr
  | gt : Expr → Expr → Expr
  | cond : Expr → Expr → Expr → Expr
deriving DecidableEq

/-- Names of the variables a compiled expression references. -/
def Expr.freeVars : Expr → List String
  | .const _ => []
  | .var n => [n]
  | .add a b => a.freeVars ++ b.freeVars
  | .sub a b => a.freeVars ++ b.freeVars
  | .mul a b => a.freeVars ++ b.freeVars
  | .div a b => a.freeVars ++ b.freeVars
  | .gt a b => a.freeVars ++ b.freeVars
  | .cond c a b => c.freeVars ++ a.freeVars ++ b.freeVars

/-- Symbol-table lookup: the value bound to the first slot whose name
matches (exprtk's symbol table holds one entry per name; when the slot
arrays contain a duplicate name only the first occurrence is bound). -/
def lookupVar : List String → List EDouble → String → EDouble
  | n :: ns, v :: vs, name => if n = name then v else lookupVar ns vs name
  | _, _, _ => EDouble.nan

/-- Value of a compiled expression given the variable slot arrays
(`m_variableNames`, `m_variables`). -/
def Expr.evalE (names : List String) (vars : List EDouble) : Expr → EDouble
  | .const q => .fin q
  | .var n => lookupVar names vars n
  | .add a b => (a.evalE names vars).add (b.evalE names vars)
  | .sub a b => (a.evalE names vars).sub (b.evalE names vars)
  | .mul a b => (a.evalE names vars).mul (b.evalE names vars)
  | .div a b => (a.evalE names vars).div (b.evalE names vars)
  | .gt a b => (a.evalE names vars).gtE (b.evalE names vars)
  | .cond c a b =>
      if (c.evalE names vars).isTrue then a.evalE names vars
      else b.evalE names vars

/-- `DatapointValue`: the plugin handles T_INTEGER and T_FLOAT; every
other type is non-numeric for variable collection. -/
inductive DatapointValue where
  | int : ℤ → DatapointValue
  | float : ℚ → DatapointValue
  | other : DatapointValue
deriving DecidableEq

/-- A `Datapoint`: a name together with its `DatapointValue`. -/
structure Datapoint where
  name : String
  data : DatapointValue
deriving DecidableEq

/-- The datapoint value's type is T_INTEGER or T_FLOAT
(the test in the `Evaluator` constructor, plugin.cpp:512-513). -/
def DatapointValue.isNumeric : DatapointValue → Bool
  | .int _ => true
  | .float _ => true
  | .other => false

/-- `MAX_EXPRESSION_VARIABLES` from simple_expression.h:20. -/
def MAX_EXPRESSION_VARIABLES : Nat := 20

/-- The variable-collection loop of the `Evaluator` constructor
(plugin.cpp:509-522): append the name of each numeric datapoint, and
break out of the loop as soon as `m_varCount` reaches
`MAX_EXPRESSION_VARIABLES`.  `acc` is the list of names collected so
far (its length plays the role of `m_varCount`). -/
def collectVarsAux : List Datapoint → List String → List String
  | [], acc => acc
  | dp :: rest, acc =>
      let acc2 := if dp.data.isNumeric then acc ++ [dp.name] else acc
      if acc2.length = MAX_EXPRESSION_VARIABLES then acc2
      else collectVarsAux rest acc2

/-- Variable names collected by the `Evaluator` constructor. -/
def collectVars (dps : List Datapoint) : List String :=
  collectVarsAux dps []

/-- The `Evaluator` (simple_expression.h:28-57): the live prefixes of the
`m_variableNames`/`m_variables` arrays (their common length is
`m_varCount`) and the compiled expression. -/
structure Evaluator where
  variableNames : List String
  values : List EDouble
  expr : Expr
deriving DecidableEq

/-- `m_varCount`: the number of live variable slots. -/
def Evaluator.varCount (ev : Evaluator) : Nat := ev.variableNames.length

/-- Source text of an expression paired with its parse.
Modelled from the spec: the exprtk parser is an external capability
(§1 delegates expression-language design); an `ExprText` carries the
raw text (for `configure`'s emptiness check) together with the parse
outcome, `none` standing for a syntax error. -/
structure ExprText where
  text : String
  ast : Option Expr
deriving DecidableEq

/-- The compile-time symbol-resolution check: exprtk compilation fails
when the expression references a name absent from the symbol table. -/
def Expr.compilesAgainst (e : Expr) (names : List String) : Bool :=
  e.freeVars.all (fun n => names.contains n)

/-- The `Evaluator` constructor (plugin.cpp:505-548): collect up to
`MAX_EXPRESSION_VARIABLES` variable names from the numeric datapoints,
initialise every slot to NaN, register the symbol table, and compile the
expression; a parse error or an unresolved symbol makes the constructor
throw, modelled as `none`. -/
def mkEvaluator (datapoints : List Datapoint) (e : ExprText) : Option Evaluator :=
  let names := collectVars datapoints
  match e.ast with
  | none => none
  | some a =>
      if a.compilesAgainst names then
        some { variableNames := names
               values := names.map (fun _ => EDouble.nan)
               expr := a }
      else none

/-- The per-datapoint value computation in `Evaluator::evaluate`
(plugin.cpp:561-573): `value` starts at 0.0; a T_INTEGER datapoint
contributes its integer value; a T_FLOAT datapoint contributes
`toDouble() + d` where `d` is derived from `rand()` (the test code left
in at plugin.cpp:570-571), modelled by consuming one draw from the
stream; any other type leaves `value` at 0.0.  Returns the value and the
remaining stream. -/
def dpValue : DatapointValue → List ℚ → ℚ × List ℚ
  | .int n, rands => ((n : ℚ), rands)
  | .float q, rands => (q + rands.headD 0, rands.tail)
  | .other, rands => (0, rands)

/-- The variable-update inner loop of `Evaluator::evaluate`
(plugin.cpp:575-585): set the slot at the first index whose name
matches, then break. -/
def setFirstVar : List String → List EDouble → String → EDouble → List EDouble
  | n :: ns, v :: vs, name, newV =>
      if n = name then newV :: vs else v :: setFirstVar ns vs name newV
  | _, vs, _, _ => vs

/-- The outer loop of `Evaluator::evaluate` (plugin.cpp:559-586): for
each datapoint in the batch compute its value and store it in the
matching variable slot (if any). -/
def updateVarsAux : Evaluator → List Datapoint → List ℚ → Evaluator × List ℚ
  | ev, [], rands => (ev, rands)
  | ev, dp :: rest, rands =>
      let pr := dpValue dp.data rands
      updateVarsAux
        { ev with values :=
            setFirstVar ev.variableNames ev.values dp.name (EDouble.fin pr.1) }
        rest pr.2

/-- Everything `Evaluator::evaluate` produces: the boolean decision it
returns, the evaluator with its updated slots, the remaining random
stream, the numeric value `m_expression.value()` computed on the way,
and whether the NaN diagnostic of plugin.cpp:588-589 was logged. -/
structure EvalOutcome where
  triggered : Bool
  evaluator : Evaluator
  rands : List ℚ
  value : EDouble
  nanLogged : Bool
deriving DecidableEq

/-- `Evaluator::evaluate` (plugin.cpp:556-591): update the variable
slots from the batch, compute the expression value, log a diagnostic iff
the value is NaN, and return `value == 1.0`. -/
def Evaluator.evaluate (ev : Evaluator) (dps : List Datapoint) (rands : List ℚ) :
    EvalOutcome :=
  let p := updateVarsAux ev dps rands
  let v := p.1.expr.evalE p.1.variableNames p.1.values
  { triggered := v.dEq (EDouble.fin 1)
    evaluator := p.1
    rands := p.2
    value := v
    nanLogged := v.isNan }

/-- The two states of the rule.
Modelled from the spec: the `BuiltinRule` state enum lives in the host
framework, not under src/; §4.4 names the states `Cleared` (initial) and
`Triggered`. -/
inductive TriggerState where
  | cleared : TriggerState
  | triggered : TriggerState
deriving DecidableEq

/-- `BuiltinRule::setState`.
Modelled from the spec: §4.4 — `setState(aggregatedBoolean)` moves to
`Triggered` if true, `Cleared` if false. -/
def setStateFn (b : Bool) : TriggerState :=
  if b then TriggerState.triggered else TriggerState.cleared

/-- The `SimpleExpression` rule object: the owned `Evaluator` pointer
(`m_triggerExpression`, `none` standing for NULL), the trigger map's
asset names in iteration (key-sorted) order, and the `BuiltinRule`
trigger state.
Modelled from the spec: the trigger map and state are kept by the
`BuiltinRule` base class, which is external to src/; §4.4 gives the
state machine and §6 the trigger bookkeeping. -/
structure SimpleExpression where
  triggerExpression : Option Evaluator
  triggers : List String
  state : TriggerState
deriving DecidableEq

/-- A freshly constructed rule (plugin.cpp:379-382 sets
`m_triggerExpression = NULL`).
Modelled from the spec: the initial trigger state `Cleared` comes from
§4.4 (`BuiltinRule` is external to src/). -/
def SimpleExpression.mkNew : SimpleExpression :=
  { triggerExpression := none, triggers := [], state := TriggerState.cleared }

/-- One datapoint entry of the `rule_config` JSON (`configure`'s loop,
plugin.cpp:436-457): whether the object has a `name` member, the name,
and the `type` string. -/
structure CfgDatapoint where
  hasName : Bool
  name : String
  dtype : String
deriving DecidableEq

/-- The parsed `rule_config` JSON document as `configure` reads it
(plugin.cpp:404-433): member-presence flags, the asset name, the
expression, whether `datapoints` is an array, and its entries. -/
structure RuleConfigDoc where
  hasAsset : Bool
  hasDatapoints : Bool
  hasExpression : Bool
  assetName : String
  expression : ExprText
  datapointsIsArray : Bool
  datapoints : List CfgDatapoint
deriving DecidableEq

/-- The datapoint vector `configure` builds (plugin.cpp:435-457):
entries with a `name` member and type `integer` (value `1L`) or `float`
(value `1.0f`); any other type is skipped. -/
def cfgDatapointVec (ds : List CfgDatapoint) : List Datapoint :=
  ds.filterMap fun d =>
    if d.hasName then
      if d.dtype = "integer" then some { name := d.name, data := DatapointValue.int 1 }
      else if d.dtype = "float" then some { name := d.name, data := DatapointValue.float 1 }
      else none
    else none

/-- `SimpleExpression::configure` (plugin.cpp:397-496).  The input is
the parsed `rule_config` document (`none` = JSON parse error).  Returns
the updated rule and the boolean result.  Failure paths: parse error;
a missing `asset`/`datapoints`/`expression` member; empty asset name;
empty expression text; `datapoints` not an array; no valid datapoint;
the `Evaluator` constructor throwing (compile failure).  On success the
new evaluator is installed and the trigger map is replaced by the single
configured asset name (`removeTriggers` + `addTrigger`,
plugin.cpp:481-485); the trigger state is never touched. -/
def SimpleExpression.configure (s : SimpleExpression) (doc : Option RuleConfigDoc) :
    SimpleExpression × Bool :=
  match doc with
  | none => (s, false)
  | some d =>
      if !d.hasAsset || !d.hasDatapoints || !d.hasExpression then (s, false)
      else if d.assetName = "" then (s, false)
      else if d.expression.text = "" then (s, false)
      else if d.datapointsIsArray then
        let vec := cfgDatapointVec d.datapoints
        if vec.length = 0 then (s, false)
        else
          match mkEvaluator vec d.expression with
          | none => (s, false)
          | some ev =>
              ({ s with triggerExpression := some ev, triggers := [d.assetName] }, true)
      else (s, false)

/-- A JSON value inside an asset object, as `evalAsset` classifies it
(plugin.cpp:313-325): `IsDouble`, other numbers (read via `GetInt`), or
anything else (skipped). -/
inductive JValue where
  | jfloat : ℚ → JValue
  | jint : ℤ → JValue
  | jother : JValue
deriving DecidableEq

/-- The datapoint vector `evalAsset` builds from an asset's JSON object
(plugin.cpp:313-325): doubles become T_FLOAT datapoints, other numbers
T_INTEGER datapoints, everything else is skipped. -/
def assetDatapoints (av : List (String × JValue)) : List Datapoint :=
  av.filterMap fun p =>
    match p.2 with
    | .jfloat q => some { name := p.1, data := DatapointValue.float q }
    | .jint k => some { name := p.1, data := DatapointValue.int k }
    | .jother => none

/-- `SimpleExpression::evalAsset` (plugin.cpp:307-371): build the
datapoint vector and call `m_triggerExpression->evaluate` on it.  When
`m_triggerExpression` is NULL the C++ would dereference a null pointer;
that state is unreachable through `plugin_init` (which deletes the
handle when `configure` fails), and is modelled here as returning false
with the rule unchanged. -/
def SimpleExpression.evalAsset (s : SimpleExpression) (av : List (String × JValue))
    (rands : List ℚ) : Bool × SimpleExpression × List ℚ :=
  match s.triggerExpression with
  | none => (false, s, rands)
  | some ev =>
      let out := ev.evaluate (assetDatapoints av) rands
      (out.triggered, { s with triggerExpression := some out.evaluator }, out.rands)

/-- The parsed notification document delivered to `plugin_eval`: one
JSON object per asset name. -/
abbrev Doc := List (String × List (String × JValue))

/-- Member lookup in the parsed document (`doc.HasMember` /
`doc[assetName]`, plugin.cpp:237-244). -/
def lookupAsset (d : Doc) (name : String) : Option (List (String × JValue)) :=
  match d.find? (fun p => p.1 = name) with
  | some p => some p.2
  | none => none

/-- The trigger loop of `plugin_eval` (plugin.cpp:226-250): `eval`
starts false and is overwritten on every iteration — set to false when
the asset is absent from the document, and to `evalAsset`'s result when
present. -/
def pluginEvalLoop : SimpleExpression → Doc → List String → Bool → List ℚ →
    Bool × SimpleExpression × List ℚ
  | s, _, [], eval, rands => (eval, s, rands)
  | s, d, t :: rest, _, rands =>
      match lookupAsset d t with
      | none => pluginEvalLoop s d rest false rands
      | some av =>
          let r := s.evalAsset av rands
          pluginEvalLoop r.2.1 d rest r.1 r.2.2

/-- `plugin_eval` (plugin.cpp:215-256): a JSON parse error returns false
without touching the state; otherwise run the trigger loop, then
`setState(eval)` and return `eval`. -/
def plugin_eval (s : SimpleExpression) (doc : Option Doc) (rands : List ℚ) :
    Bool × SimpleExpression × List ℚ :=
  match doc with
  | none => (false, s, rands)
  | some d =>
      let t := pluginEvalLoop s d s.triggers false rands
      (t.1, { t.2.1 with state := setStateFn t.1 }, t.2.2)

/-- Helper: the C++ comparison `value == 1.0` holds exactly for the
finite value 1 (never for NaN or an infinity). -/
theorem dEq_fin_one_iff (v : EDouble) :
    v.dEq (EDouble.fin 1) = true ↔ v = EDouble.fin 1 := by
  cases v with
  | nan => simp [EDouble.dEq]
  | inf s => simp [EDouble.dEq]
  | fin q => simp [EDouble.dEq]

/-- An evaluator compiled from the expression text 2-1 (no variables). -/
def evTwoMinusOne : Evaluator :=
  { variableNames := [], values := [], expr := Expr.sub (Expr.const 2) (Expr.const 1) }

/-- An evaluator compiled from the expression text 3-1 (no variables). -/
def evThreeMinusOne : Evaluator :=
  { variableNames := [], values := [], expr := Expr.sub (Expr.const 3) (Expr.const 1) }

/-- Claim C1: for every evaluation of a successfully compiled
expression, the boolean trigger decision is true if and only if the
numeric result equals exactly 1.0 (not C-style nonzero truthiness); in
particular the expression 2-1 (value 1.0) triggers and the expression
3-1 (value 2.0, truthy under C semantics) does not. -/
theorem c1_trigger_iff_exactly_one :
    (∀ (ev : Evaluator) (dps : List Datapoint) (rands : List ℚ),
        (ev.evaluate dps rands).triggered = true ↔
          (ev.evaluate dps rands).value = EDouble.fin 1) ∧
    (evTwoMinusOne.evaluate [] []).value = EDouble.fin 1 ∧
    (evTwoMinusOne.evaluate [] []).triggered = true ∧
    (evThreeMinusOne.evaluate [] []).value = EDouble.fin 2 ∧
    (evThreeMinusOne.evaluate [] []).triggered = false := by
  refine ⟨fun ev dps rands => dEq_fin_one_iff _, ?_, ?_, ?_, ?_⟩ <;>
    norm_num [evTwoMinusOne, evThreeMinusOne, Evaluator.evaluate, updateVarsAux,
      Expr.evalE, EDouble.sub, EDouble.add, EDouble.neg, EDouble.dEq]

/-- The rule for the C2 scenario: expression `x` over the single
variable `x`, subscribed to the two assets A and B. -/
def c2ev : Evaluator :=
  { variableNames := ["x"], values := [EDouble.nan], expr := Expr.var "x" }

/-- A rule subscribed to assets A and B (map iteration order A, B). -/
def c2rule : SimpleExpression :=
  { triggerExpression := some c2ev, triggers := ["A", "B"],
    state := TriggerState.cleared }

/-- A cycle document where asset A evaluates to 2.0 (no trigger) and
asset B evaluates to 1.0 (trigger). -/
def c2doc : Doc := [("A", [("x", JValue.jint 2)]), ("B", [("x", JValue.jint 1)])]

/-- A cycle document where asset A is absent and asset B triggers. -/
def c2docB : Doc := [("B", [("x", JValue.jint 1)])]

/-- Claim C2 (code bug): `plugin_eval` overwrites `eval` on every
iteration of the trigger loop, so the cycle decision is the last
asset's result, not the AND of all of them.  Here asset A's per-asset
evaluation is false, yet the cycle returns true; and a cycle whose
document lacks asset A entirely still returns true because asset B is
evaluated afterwards. -/
theorem c2_last_asset_wins :
    (plugin_eval c2rule (some c2doc) []).1 = true ∧
    (c2rule.evalAsset [("x", JValue.jint 2)] []).1 = false ∧
    (plugin_eval c2rule (some c2docB) []).1 = true := by
  refine ⟨?_, ?_, ?_⟩ <;> decide

/-- The evaluator for the C3 scenario: the single float variable
`humidity` and the expression `humidity`. -/
def c3ev : Evaluator :=
  { variableNames := ["humidity"], values := [EDouble.nan],
    expr := Expr.var "humidity" }

/-- A sample batch with one T_FLOAT datapoint `humidity = 0.0`. -/
def c3batch : List Datapoint :=
  [{ name := "humidity", data := DatapointValue.float 0 }]

/-- Claim C3 (code bug): `Evaluator::evaluate` adds a `rand()`-derived
offset to every T_FLOAT datapoint value (the test code left in at
plugin.cpp:570-571), so two successive evaluations of the same
unchanged batch yield different numeric results once the two draws
differ — here 5.0 and then 7.0. -/
theorem c3_rand_breaks_determinism :
    (c3ev.evaluate c3batch [5, 7]).value = EDouble.fin 5 ∧
    ((c3ev.evaluate c3batch [5, 7]).evaluator.evaluate c3batch
        (c3ev.evaluate c3batch [5, 7]).rands).value = EDouble.fin 7 ∧
    EDouble.fin 5 ≠ EDouble.fin 7 := by
  refine ⟨?_, ?_, ?_⟩ <;>
    norm_num [c3ev, c3batch, Evaluator.evaluate, updateVarsAux, dpValue,
      setFirstVar, Expr.evalE, lookupVar]

/-- Helper: the update loop of `Evaluator::evaluate` never changes the
variable-name array or the compiled expression, only the slot values. -/
theorem updateVarsAux_preserves (dps : List Datapoint) :
    ∀ (ev : Evaluator) (rands : List ℚ),
      (updateVarsAux ev dps rands).1.variableNames = ev.variableNames ∧
      (updateVarsAux ev dps rands).1.expr = ev.expr := by
  induction dps with
  | nil => intro ev rands; simp [updateVarsAux]
  | cons dp rest ih => intro ev rands; simpa [updateVarsAux] using ih _ _

/-- Claim C5 as amended: `evalAsset`/`evaluate` never recompiles — a
sample batch leaves the variable-name set, the variable count and the
compiled expression of the evaluator exactly as they were; a datapoint
name that is not already bound is simply ignored. -/
theorem c5_no_recompilation (ev : Evaluator) (dps : List Datapoint) (rands : List ℚ) :
    (ev.evaluate dps rands).evaluator.variableNames = ev.variableNames ∧
    (ev.evaluate dps rands).evaluator.expr = ev.expr ∧
    (ev.evaluate dps rands).evaluator.varCount = ev.varCount := by
  have h := updateVarsAux_preserves dps ev rands
  exact ⟨h.1, h.2, by simp [Evaluator.varCount, Evaluator.evaluate, h.1]⟩

/-- The evaluator of the C5 counterexample: only `humidity` is bound. -/
def c5ev : Evaluator :=
  { variableNames := ["humidity"], values := [EDouble.nan],
    expr := Expr.var "humidity" }

/-- A batch whose datapoint `temperature` was never bound before. -/
def c5batch : List Datapoint :=
  [{ name := "humidity", data := DatapointValue.int 5 },
   { name := "temperature", data := DatapointValue.int 7 }]

/-- Claim C5 as stated is false: a batch containing the previously
unseen datapoint `temperature` does not cause any recompilation — after
the evaluation the variable set still does not contain `temperature`
(the new variable did not participate), the variable count is still 1,
and the compiled expression is the stale one. -/
theorem c5_new_name_not_bound :
    "temperature" ∉ (c5ev.evaluate c5batch []).evaluator.variableNames ∧
    (c5ev.evaluate c5batch []).evaluator.expr = Expr.var "humidity" ∧
    (c5ev.evaluate c5batch []).evaluator.varCount = 1 := by
  refine ⟨?_, ?_, ?_⟩ <;> decide

/-- A configuration document whose asset name is empty (all members
present, datapoints and expression otherwise valid). -/
def c4doc : RuleConfigDoc :=
  { hasAsset := true, hasDatapoints := true, hasExpression := true,
    assetName := "",
    expression := { text := "humidity", ast := some (Expr.var "humidity") },
    datapointsIsArray := true,
    datapoints := [{ hasName := true, name := "humidity", dtype := "float" }] }

/-- Claim C4 as stated is false: on a configuration whose asset name is
empty, `configure` reports failure (returns false), not success. -/
theorem c4_configure_rejects_empty :
    (SimpleExpression.mkNew.configure (some c4doc)).2 = false := by decide

/-- Claim C4 as amended: for every configuration in which the asset
name or the expression text is empty, `configure` reports failure
(returns false) and leaves the whole rule — evaluator, trigger list and
trigger state — unchanged, so the rule stays inert until a later,
complete configuration is applied. -/
theorem c4_empty_config_rejected (s : SimpleExpression) (d : RuleConfigDoc)
    (h : d.assetName = "" ∨ d.expression.text = "") :
    s.configure (some d) = (s, false) := by
  rcases h with h | h <;>
    by_cases h1 : d.hasAsset = true <;> by_cases h2 : d.hasDatapoints = true <;>
    by_cases h3 : d.hasExpression = true <;> by_cases h4 : d.assetName = "" <;>
    simp_all [SimpleExpression.configure]

/-- Witness for C4: the empty-asset-name document is rejected and the
fresh rule is left unchanged. -/
theorem c4_empty_config_rejected_witness :
    (c4doc.assetName = "" ∨ c4doc.expression.text = "") ∧
    SimpleExpression.mkNew.configure (some c4doc) = (SimpleExpression.mkNew, false) :=
  ⟨Or.inl rfl, c4_empty_config_rejected SimpleExpression.mkNew c4doc (Or.inl rfl)⟩

/-- Helper: unfolding of the variable-collection loop on a cons cell. -/
theorem collectVarsAux_cons (dp : Datapoint) (rest : List Datapoint) (acc : List String) :
    collectVarsAux (dp :: rest) acc =
      (if (if dp.data.isNumeric then acc ++ [dp.name] else acc).length = MAX_EXPRESSION_VARIABLES
       then (if dp.data.isNumeric then acc ++ [dp.name] else acc)
       else collectVarsAux rest (if dp.data.isNumeric then acc ++ [dp.name] else acc)) := rfl

/-- Helper: starting below the cap, the variable-collection loop never
collects more than `MAX_EXPRESSION_VARIABLES` names. -/
theorem collectVarsAux_length_le (dps : List Datapoint) :
    ∀ acc : List String, acc.length < MAX_EXPRESSION_VARIABLES →
      (collectVarsAux dps acc).length ≤ MAX_EXPRESSION_VARIABLES := by
  induction dps with
  | nil => intro acc h; simpa [collectVarsAux] using Nat.le_of_lt h
  | cons dp rest ih =>
      intro acc h
      rw [collectVarsAux_cons]
      set acc2 := if dp.data.isNumeric then acc ++ [dp.name] else acc with hacc2
      have hlen : acc2.length ≤ acc.length + 1 := by
        by_cases hn : dp.data.isNumeric <;> simp [hacc2, hn]
      by_cases hb : acc2.length = MAX_EXPRESSION_VARIABLES
      · rw [if_pos hb]; exact Nat.le_of_eq hb
      · rw [if_neg hb]; exact ih acc2 (by omega)

/-- Helper: once the cap is reached inside `dps`, the loop breaks and
any datapoints appended after `dps` are never examined. -/
theorem collectVarsAux_append_of_cap (extra : List Datapoint) (dps : List Datapoint) :
    ∀ acc : List String, acc.length < MAX_EXPRESSION_VARIABLES →
      MAX_EXPRESSION_VARIABLES ≤ acc.length + (dps.filter (fun dp => dp.data.isNumeric)).length →
      collectVarsAux (dps ++ extra) acc = collectVarsAux dps acc := by
  induction dps with
  | nil =>
      intro acc h1 h2
      simp only [List.filter_nil, List.length_nil, Nat.add_zero] at h2
      omega
  | cons dp rest ih =>
      intro acc h1 h2
      rw [List.cons_append, collectVarsAux_cons, collectVarsAux_cons]
      set acc2 := if dp.data.isNumeric then acc ++ [dp.name] else acc with hacc2
      by_cases hb : acc2.length = MAX_EXPRESSION_VARIABLES
      · rw [if_pos hb, if_pos hb]
      · rw [if_neg hb, if_neg hb]
        by_cases hn : dp.data.isNumeric = true
        · have hl : acc2.length = acc.length + 1 := by simp [hacc2, hn]
          have hf : ((dp :: rest).filter (fun dp => dp.data.isNumeric)).length
              = (rest.filter (fun dp => dp.data.isNumeric)).length + 1 := by
            simp [List.filter_cons, hn]
          exact ih acc2 (by omega) (by omega)
        · have hl : acc2.length = acc.length := by simp [hacc2, hn]
          have hf : ((dp :: rest).filter (fun dp => dp.data.isNumeric)).length
              = (rest.filter (fun dp => dp.data.isNumeric)).length := by
            simp [List.filter_cons, hn]
          exact ih acc2 (by omega) (by omega)

/-- The twenty variable names of an evaluator already at the cap. -/
def c6names : List String :=
  ["v0", "v1", "v2", "v3", "v4", "v5", "v6", "v7", "v8", "v9",
   "v10", "v11", "v12", "v13", "v14", "v15", "v16", "v17", "v18", "v19"]

/-- An evaluator with all 20 slots in use. -/
def c6capEv : Evaluator :=
  { variableNames := c6names, values := c6names.map (fun _ => EDouble.nan),
    expr := Expr.var "v19" }

/-- A reading with 20 numeric datapoints, filling the table exactly. -/
def c6many : List Datapoint :=
  List.replicate 20 { name := "a", data := DatapointValue.int 1 }

/-- Claim C6: at most `MAX_EXPRESSION_VARIABLES` (20) variable slots
ever exist — the constructor's collection loop never exceeds the cap;
once 20 numeric datapoints have filled it, further datapoints are
rejected without changing the collected names (and without throwing:
the constructor still succeeds on a 21-datapoint reading); evaluation
never changes the slot count; and an evaluator at the cap still updates
an already-bound variable normally. -/
theorem c6_variable_cap :
    (∀ dps : List Datapoint, (collectVars dps).length ≤ MAX_EXPRESSION_VARIABLES) ∧
    (∀ dps extra : List Datapoint,
        MAX_EXPRESSION_VARIABLES ≤ (dps.filter (fun dp => dp.data.isNumeric)).length →
        collectVars (dps ++ extra) = collectVars dps) ∧
    (∀ (ev : Evaluator) (dps : List Datapoint) (rands : List ℚ),
        (ev.evaluate dps rands).evaluator.varCount = ev.varCount) ∧
    (mkEvaluator (List.replicate 21 { name := "a", data := DatapointValue.int 1 })
        { text := "1", ast := some (Expr.const 1) }).isSome = true ∧
    (c6capEv.evaluate [{ name := "v19", data := DatapointValue.int 1 }] []).value
      = EDouble.fin 1 := by
  refine ⟨?_, ?_, ?_, ?_, ?_⟩
  · intro dps
    exact collectVarsAux_length_le dps [] (by simp [MAX_EXPRESSION_VARIABLES])
  · intro dps extra hge
    exact collectVarsAux_append_of_cap extra dps []
      (by simp [MAX_EXPRESSION_VARIABLES]) (by simpa using hge)
  · intro ev dps rands
    have h := updateVarsAux_preserves dps ev rands
    simp [Evaluator.varCount, Evaluator.evaluate, h.1]
  · decide
  · decide

/-- Witness for C6: a table filled by 20 numeric datapoints rejects a
21st binding attempt, leaving the collected names unchanged. -/
theorem c6_variable_cap_witness :
    (MAX_EXPRESSION_VARIABLES ≤ (c6many.filter (fun dp => dp.data.isNumeric)).length) ∧
    collectVars (c6many ++ [{ name := "b", data := DatapointValue.int 2 }])
      = collectVars c6many :=
  ⟨by decide,
   c6_variable_cap.2.1 c6many [{ name := "b", data := DatapointValue.int 2 }] (by decide)⟩

/-- A previously compiled evaluator whose expression is the constant 1
(it always triggers). -/
def c7ev : Evaluator :=
  { variableNames := ["humidity"], values := [EDouble.nan], expr := Expr.const 1 }

/-- A rule holding the previously compiled evaluator. -/
def c7rule : SimpleExpression :=
  { triggerExpression := some c7ev, triggers := ["modbus"],
    state := TriggerState.cleared }

/-- A reconfiguration whose expression references the unknown symbol
`zzz`, so compilation fails. -/
def c7badcfg : RuleConfigDoc :=
  { hasAsset := true, hasDatapoints := true, hasExpression := true,
    assetName := "modbus",
    expression := { text := "zzz + 1", ast := some (Expr.add (Expr.var "zzz") (Expr.const 1)) },
    datapointsIsArray := true,
    datapoints := [{ hasName := true, name := "humidity", dtype := "float" }] }

/-- Claim C7 as stated is false: after the failing compile the
previously compiled expression is kept (configure returns false and
changes nothing), so the next cycle's per-asset evaluation runs the old
expression and here returns true, not the claimed false. -/
theorem c7_eval_after_failed_compile_triggers :
    (c7rule.configure (some c7badcfg)).2 = false ∧
    ((c7rule.configure (some c7badcfg)).1.evalAsset [("humidity", JValue.jint 1)] []).1 = true := by
  refine ⟨?_, ?_⟩ <;> decide

/-- Claim C7 as amended: compilation is all-or-nothing and happens only
inside `configure` (never during `evalAsset`): when the `Evaluator`
constructor fails, `configure` returns false and the rule — previously
compiled expression, trigger list and trigger state — is left entirely
unchanged, so subsequent cycles keep evaluating the previous compiled
expression. -/
theorem c7_compile_failure_preserves_state (s : SimpleExpression) (d : RuleConfigDoc)
    (h : mkEvaluator (cfgDatapointVec d.datapoints) d.expression = none) :
    s.configure (some d) = (s, false) := by
  by_cases h1 : d.hasAsset = true <;> by_cases h2 : d.hasDatapoints = true <;>
    by_cases h3 : d.hasExpression = true <;> by_cases h4 : d.assetName = "" <;>
    by_cases h5 : d.expression.text = "" <;> by_cases h6 : d.datapointsIsArray = true <;>
    by_cases h7 : (cfgDatapointVec d.datapoints).length = 0 <;>
    simp_all [SimpleExpression.configure]

/-- Witness for C7: the `zzz + 1` reconfiguration fails to compile and
the rule is unchanged. -/
theorem c7_compile_failure_preserves_state_witness :
    (mkEvaluator (cfgDatapointVec c7badcfg.datapoints) c7badcfg.expression = none) ∧
    c7rule.configure (some c7badcfg) = (c7rule, false) :=
  ⟨by decide, c7_compile_failure_preserves_state c7rule c7badcfg (by decide)⟩

/-- Helper: the NaN test holds exactly for the NaN value. -/
theorem isNan_iff (v : EDouble) : v.isNan = true ↔ v = EDouble.nan := by
  cases v <;> simp [EDouble.isNan]

/-- An evaluator whose expression 1/0 evaluates to +∞. -/
def c8ev : Evaluator :=
  { variableNames := [], values := [], expr := Expr.div (Expr.const 1) (Expr.const 0) }

/-- Claim C8 as stated is false: the expression 1/0 evaluates to the
non-finite value +∞, yet no diagnostic is reported — the log at
plugin.cpp:588-589 fires only on `isnan`, and infinity is not NaN.  The
boolean decision is still false. -/
theorem c8_infinity_without_diagnostic :
    (c8ev.evaluate [] []).value = EDouble.inf true ∧
    (c8ev.evaluate [] []).nanLogged = false ∧
    (c8ev.evaluate [] []).triggered = false := by
  refine ⟨?_, ?_, ?_⟩ <;> decide

/-- Claim C8 as amended: a non-finite result is not a hard error — the
numeric value is still produced and the decision `result == 1.0` is
false for every non-finite result; the diagnostic, however, is reported
exactly when the result is NaN, not for an infinity. -/
theorem c8_nonfinite_never_triggers (ev : Evaluator) (dps : List Datapoint)
    (rands : List ℚ) :
    ((ev.evaluate dps rands).value.isFinite = false →
        (ev.evaluate dps rands).triggered = false) ∧
    ((ev.evaluate dps rands).nanLogged = true ↔
        (ev.evaluate dps rands).value = EDouble.nan) := by
  constructor
  · intro h
    have hne : (ev.evaluate dps rands).value ≠ EDouble.fin 1 := by
      intro hv; rw [hv] at h; simp [EDouble.isFinite] at h
    cases htrig : (ev.evaluate dps rands).triggered
    · rfl
    · exact absurd ((dEq_fin_one_iff _).mp htrig) hne
  · exact isNan_iff _

/-- An evaluator whose variable was never observed, so its expression
`humidity + 1` evaluates to NaN. -/
def c8nanEv : Evaluator :=
  { variableNames := ["humidity"], values := [EDouble.nan],
    expr := Expr.add (Expr.var "humidity") (Expr.const 1) }

/-- Witness for C8: a NaN result does not trigger. -/
theorem c8_nonfinite_never_triggers_witness :
    (c8nanEv.evaluate [] []).value.isFinite = false ∧
    (c8nanEv.evaluate [] []).triggered = false :=
  ⟨by decide, (c8_nonfinite_never_triggers c8nanEv [] []).1 (by decide)⟩

/-- Helper: the stored trigger state does not influence `evalAsset` —
the decision, the updated evaluator and the consumed random draws are
identical, and the state field is carried through unchanged. -/
theorem evalAsset_state_irrelevant (s : SimpleExpression) (st : TriggerState)
    (av : List (String × JValue)) (rands : List ℚ) :
    (({ s with state := st } : SimpleExpression).evalAsset av rands).1
        = (s.evalAsset av rands).1 ∧
    (({ s with state := st } : SimpleExpression).evalAsset av rands).2.1
        = { (s.evalAsset av rands).2.1 with state := st } ∧
    (({ s with state := st } : SimpleExpression).evalAsset av rands).2.2
        = (s.evalAsset av rands).2.2 := by
  cases hte : s.triggerExpression <;>
    simp [SimpleExpression.evalAsset, hte]

/-- Helper: the stored trigger state does not influence the trigger
loop of `plugin_eval` either. -/
theorem pluginEvalLoop_state_irrelevant (ts : List String) :
    ∀ (s : SimpleExpression) (st : TriggerState) (d : Doc) (b : Bool) (rands : List ℚ),
      (pluginEvalLoop { s with state := st } d ts b rands).1
          = (pluginEvalLoop s d ts b rands).1 ∧
      (pluginEvalLoop { s with state := st } d ts b rands).2.1
          = { (pluginEvalLoop s d ts b rands).2.1 with state := st } ∧
      (pluginEvalLoop { s with state := st } d ts b rands).2.2
          = (pluginEvalLoop s d ts b rands).2.2 := by
  induction ts with
  | nil => intro s st d b rands; exact ⟨rfl, rfl, rfl⟩
  | cons t rest ih =>
      intro s st d b rands
      show (pluginEvalLoop { s with state := st } d (t :: rest) b rands).1 = _ ∧ _
      cases h : lookupAsset d t with
      | none =>
          simp only [pluginEvalLoop, h]
          exact ih s st d false rands
      | some av =>
          have he := evalAsset_state_irrelevant s st av rands
          simp only [pluginEvalLoop, h, he.1, he.2.1, he.2.2]
          exact ih _ st d _ _

/-- Claim C9: on every evaluation cycle whose document parses, the
trigger state is unconditionally overwritten from the cycle's boolean —
`Triggered` if true, `Cleared` if false; the prior state influences
neither the decision nor the new state (no hysteresis, no debounce);
and a freshly constructed rule starts in `Cleared`. -/
theorem c9_state_overwritten :
    (∀ (s : SimpleExpression) (d : Doc) (rands : List ℚ),
        (plugin_eval s (some d) rands).2.1.state
          = (if (plugin_eval s (some d) rands).1 then TriggerState.triggered
             else TriggerState.cleared)) ∧
    (∀ (s : SimpleExpression) (st : TriggerState) (d : Doc) (rands : List ℚ),
        (plugin_eval { s with state := st } (some d) rands).1
            = (plugin_eval s (some d) rands).1 ∧
        (plugin_eval { s with state := st } (some d) rands).2.1.state
            = (plugin_eval s (some d) rands).2.1.state) ∧
    SimpleExpression.mkNew.state = TriggerState.cleared := by
  refine ⟨fun s d rands => rfl, fun s st d rands => ?_, rfl⟩
  have h := pluginEvalLoop_state_irrelevant s.triggers s st d false rands
  refine ⟨h.1, ?_⟩
  show setStateFn (pluginEvalLoop { s with state := st } d s.triggers false rands).1
      = setStateFn (pluginEvalLoop s d s.triggers false rands).1
  rw [h.1]

/-- The expression contains only literals, variables and the four
arithmetic operators (no comparison, no conditional). -/
def Expr.isArith : Expr → Bool
  | .const _ => true
  | .var _ => true
  | .add a b => a.isArith && b.isArith
  | .sub a b => a.isArith && b.isArith
  | .mul a b => a.isArith && b.isArith
  | .div a b => a.isArith && b.isArith
  | .gt _ _ => false
  | .cond _ _ _ => false

/-- The expression references the variable named `n`. -/
def Expr.mentions (n : String) : Expr → Bool
  | .const _ => false
  | .var m => decide (m = n)
  | .add a b => a.mentions n || b.mentions n
  | .sub a b => a.mentions n || b.mentions n
  | .mul a b => a.mentions n || b.mentions n
  | .div a b => a.mentions n || b.mentions n
  | .gt a b => a.mentions n || b.mentions n
  | .cond c a b => c.mentions n || a.mentions n || b.mentions n

/-- Helper: NaN absorbs through IEEE addition (left). -/
theorem add_nan_left (x : EDouble) : EDouble.add EDouble.nan x = EDouble.nan := by
  cases x <;> rfl

/-- Helper: NaN absorbs through IEEE addition (right). -/
theorem add_nan_right (x : EDouble) : EDouble.add x EDouble.nan = EDouble.nan := by
  cases x <;> rfl

/-- Helper: NaN absorbs through IEEE subtraction (left). -/
theorem sub_nan_left (x : EDouble) : EDouble.sub EDouble.nan x = EDouble.nan := by
  cases x <;> rfl

/-- Helper: NaN absorbs through IEEE subtraction (right). -/
theorem sub_nan_right (x : EDouble) : EDouble.sub x EDouble.nan = EDouble.nan := by
  cases x <;> rfl

/-- Helper: NaN absorbs through IEEE multiplication (left). -/
theorem mul_nan_left (x : EDouble) : EDouble.mul EDouble.nan x = EDouble.nan := by
  cases x <;> rfl

/-- Helper: NaN absorbs through IEEE multiplication (right). -/
theorem mul_nan_right (x : EDouble) : EDouble.mul x EDouble.nan = EDouble.nan := by
  cases x <;> rfl

/-- Helper: NaN absorbs through IEEE division (left). -/
theorem div_nan_left (x : EDouble) : EDouble.div EDouble.nan x = EDouble.nan := by
  cases x <;> rfl

/-- Helper: NaN absorbs through IEEE division (right). -/
theorem div_nan_right (x : EDouble) : EDouble.div x EDouble.nan = EDouble.nan := by
  cases x <;> rfl

/-- Helper: a purely arithmetic expression that references a variable
whose bound value is NaN evaluates to NaN. -/
theorem arith_nan_propagates (names : List String) (vars : List EDouble) (n : String) :
    ∀ e : Expr, e.isArith = true → e.mentions n = true →
      lookupVar names vars n = EDouble.nan → e.evalE names vars = EDouble.nan := by
  intro e
  induction e with
  | const q => intro _ hm _; simp [Expr.mentions] at hm
  | var m =>
      intro _ hm hl
      simp [Expr.mentions] at hm
      subst hm
      simpa [Expr.evalE] using hl
  | add a b iha ihb =>
      intro ha hm hl
      simp [Expr.isArith] at ha
      simp [Expr.mentions] at hm
      rcases hm with hm | hm
      · simp [Expr.evalE, iha ha.1 hm hl, add_nan_left]
      · simp [Expr.evalE, ihb ha.2 hm hl, add_nan_right]
  | sub a b iha ihb =>
      intro ha hm hl
      simp [Expr.isArith] at ha
      simp [Expr.mentions] at hm
      rcases hm with hm | hm
      · simp [Expr.evalE, iha ha.1 hm hl, sub_nan_left]
      · simp [Expr.evalE, ihb ha.2 hm hl, sub_nan_right]
  | mul a b iha ihb =>
      intro ha hm hl
      simp [Expr.isArith] at ha
      simp [Expr.mentions] at hm
      rcases hm with hm | hm
      · simp [Expr.evalE, iha ha.1 hm hl, mul_nan_left]
      · simp [Expr.evalE, ihb ha.2 hm hl, mul_nan_right]
  | div a b iha ihb =>
      intro ha hm hl
      simp [Expr.isArith] at ha
      simp [Expr.mentions] at hm
      rcases hm with hm | hm
      · simp [Expr.evalE, iha ha.1 hm hl, div_nan_left]
      · simp [Expr.evalE, ihb ha.2 hm hl, div_nan_right]
  | gt a b iha ihb => intro ha _ _; simp [Expr.isArith] at ha
  | cond c a b ihc iha ihb => intro ha _ _; simp [Expr.isArith] at ha

/-- Helper: storing a value under a name different from `n` does not
change what is looked up under `n`. -/
theorem lookup_setFirstVar_ne (m n : String) (v : EDouble) (h : m ≠ n) :
    ∀ (names : List String) (vars : List EDouble),
      lookupVar names (setFirstVar names vars m v) n = lookupVar names vars n := by
  intro names
  induction names with
  | nil => intro vars; rfl
  | cons n1 ns ih =>
      intro vars
      cases vars with
      | nil => rfl
      | cons v1 vs =>
          by_cases h1 : n1 = m
          · subst h1
            simp [setFirstVar, lookupVar, h]
          · by_cases h2 : n1 = n
            · simp [setFirstVar, lookupVar, h1, h2, Ne.symm h]
            · simp [setFirstVar, lookupVar, h1, h2]
              exact ih vs

/-- Helper: a batch containing no datapoint named `n` leaves the value
bound to `n` untouched. -/
theorem updateVarsAux_lookup_not_observed (n : String) (dps : List Datapoint) :
    ∀ (ev : Evaluator) (rands : List ℚ),
      (∀ dp ∈ dps, dp.name ≠ n) →
      lookupVar (updateVarsAux ev dps rands).1.variableNames
          (updateVarsAux ev dps rands).1.values n
        = lookupVar ev.variableNames ev.values n := by
  induction dps with
  | nil => intro ev rands _; rfl
  | cons dp rest ih =>
      intro ev rands hall
      have h1 : dp.name ≠ n := hall dp (List.mem_cons_self _ _)
      have h2 : ∀ x ∈ rest, x.name ≠ n := fun x hx => hall x (List.mem_cons_of_mem _ hx)
      simp only [updateVarsAux]
      rw [ih _ _ h2]
      exact lookup_setFirstVar_ne dp.name n _ h1 ev.variableNames ev.values

/-- The default-configuration expression if(humidity > 50, 1, 0). -/
def c10expA : Expr :=
  Expr.cond (Expr.gt (Expr.var "humidity") (Expr.const 50)) (Expr.const 1) (Expr.const 0)

/-- A freshly compiled evaluator over the single, not yet observed
variable `humidity` with the default-configuration expression. -/
def c10evA : Evaluator :=
  { variableNames := ["humidity"], values := [EDouble.nan], expr := c10expA }

/-- The same evaluator with the branches swapped:
if(humidity > 50, 0, 1). -/
def c10evB : Evaluator :=
  { variableNames := ["humidity"], values := [EDouble.nan],
    expr := Expr.cond (Expr.gt (Expr.var "humidity") (Expr.const 50))
      (Expr.const 0) (Expr.const 1) }

/-- Claim C10 as stated is false: with the never-observed variable
`humidity` still bound to NaN, the repository's own default expression
if(humidity > 50, 1, 0) evaluates to the finite value 0.0 — not to a
non-finite value — because the NaN comparison is simply false; and the
branch-swapped variant if(humidity > 50, 0, 1) even evaluates to 1.0
and produces a triggered decision. -/
theorem c10_unobserved_var_can_trigger :
    mkEvaluator [{ name := "humidity", data := DatapointValue.float 1 }]
        { text := "if(humidity > 50, 1, 0)", ast := some c10expA } = some c10evA ∧
    (c10evA.evaluate [] []).value = EDouble.fin 0 ∧
    (c10evA.evaluate [] []).value.isFinite = true ∧
    (c10evB.evaluate [] []).triggered = true := by
  refine ⟨?_, ?_, ?_, ?_⟩ <;> decide

/-- Claim C10 as amended: every slot of a freshly compiled evaluator is
initialised to NaN; a variable whose name appears in no sample batch
keeps its value; a purely arithmetic expression (only `+`, `-`, `*`,
`/`) referencing a NaN-valued variable evaluates to NaN; and a NaN
result never produces a triggered decision.  (Comparisons and
conditionals over an unobserved variable, by contrast, can evaluate to
finite values and can even trigger.) -/
theorem c10_nan_init_and_propagation :
    (∀ (dps : List Datapoint) (et : ExprText) (ev : Evaluator),
        mkEvaluator dps et = some ev →
        ev.values = ev.variableNames.map (fun _ => EDouble.nan)) ∧
    (∀ (ev : Evaluator) (dps : List Datapoint) (rands : List ℚ) (n : String),
        (∀ dp ∈ dps, dp.name ≠ n) →
        lookupVar (ev.evaluate dps rands).evaluator.variableNames
            (ev.evaluate dps rands).evaluator.values n
          = lookupVar ev.variableNames ev.values n) ∧
    (∀ (names : List String) (vars : List EDouble) (n : String) (e : Expr),
        e.isArith = true → e.mentions n = true →
        lookupVar names vars n = EDouble.nan →
        e.evalE names vars = EDouble.nan) ∧
    (∀ (ev : Evaluator) (dps : List Datapoint) (rands : List ℚ),
        (ev.evaluate dps rands).value = EDouble.nan →
        (ev.evaluate dps rands).triggered = false) := by
  refine ⟨?_, ?_, ?_, ?_⟩
  · intro dps et ev h
    cases hast : et.ast with
    | none => simp [mkEvaluator, hast] at h
    | some a =>
        by_cases hc : a.compilesAgainst (collectVars dps) = true
        · simp [mkEvaluator, hast, hc] at h
          subst h
          simp
        · simp [mkEvaluator, hast, hc] at h
  · intro ev dps rands n hall
    exact updateVarsAux_lookup_not_observed n dps ev rands hall
  · intro names vars n e ha hm hl
    exact arith_nan_propagates names vars n e ha hm hl
  · intro ev dps rands h
    show (ev.evaluate dps rands).value.dEq (EDouble.fin 1) = false
    rw [h]
    rfl

/-- Witness for C10: concrete instances of all four parts, with the
never-observed variable `humidity` of the freshly compiled default
evaluator and the arithmetic expression humidity + 1. -/
theorem c10_nan_init_and_propagation_witness :
    c10evA.values = c10evA.variableNames.map (fun _ => EDouble.nan) ∧
    lookupVar
        (c10evA.evaluate [{ name := "temperature", data := DatapointValue.int 7 }] []).evaluator.variableNames
        (c10evA.evaluate [{ name := "temperature", data := DatapointValue.int 7 }] []).evaluator.values
        "humidity"
      = lookupVar c10evA.variableNames c10evA.values "humidity" ∧
    (Expr.add (Expr.var "humidity") (Expr.const 1)).evalE ["humidity"] [EDouble.nan]
      = EDouble.nan ∧
    (({ variableNames := ["humidity"], values := [EDouble.nan],
        expr := Expr.add (Expr.var "humidity") (Expr.const 1) } : Evaluator).evaluate
        [] []).triggered = false :=
  ⟨c10_nan_init_and_propagation.1
      [{ name := "humidity", data := DatapointValue.float 1 }]
      { text := "if(humidity > 50, 1, 0)", ast := some c10expA } c10evA (by decide),
   c10_nan_init_and_propagation.2.1 c10evA
      [{ name := "temperature", data := DatapointValue.int 7 }] [] "humidity"
      (by intro dp hdp; simp at hdp; subst hdp; decide),
   c10_nan_init_and_propagation.2.2.1 ["humidity"] [EDouble.nan] "humidity"
      (Expr.add (Expr.var "humidity") (Expr.const 1))
      (by decide) (by decide) (by decide),
   c10_nan_init_and_propagation.2.2.2
      { variableNames := ["humidity"], values := [EDouble.nan],
        expr := Expr.add (Expr.var "humidity") (Expr.const 1) } [] [] (by decide)⟩

end SimpleExprRule
